import Mathlib

/-!
Verification development for the hot-tub controller repository
(`hot-tub-pi-machine.py` and `main.py`).

The numeric values held in Python `float` variables are modelled as an
extended-rational type `PyFloat` (a finite rational, a signed infinity, or
NaN), with the IEEE comparison semantics Python uses.  String-to-float
conversion (`float(...)`) is embedded as a parser over `List Char`
implementing the documented grammar of Python `float`: optional surrounding
whitespace, optional sign, then either `inf`/`infinity`/`nan`
(case-insensitive) or a decimal number with optional fraction, optional
exponent, and underscores permitted between digits.

The controller state of `hot-tub-pi-machine.py` is the structure `TubState`;
its operations (`set_goal_temp`, jets toggle, the `read_temp` loop body, the
`manage_temp` loop body, `stop`) are embedded as explicit state transformers
that also report the physical relay writes they issue.  The earlier draft
`main.py` is embedded in the namespace `MainPy`.
-/

/-- Value of a Python `float`: a finite rational, a signed infinity
(`neg = true` for `-inf`), or NaN. -/
inductive PyFloat where
  | finite (q : ℚ)
  | inf (neg : Bool)
  | nan
deriving DecidableEq, Repr

/-- Python `<` on floats: NaN compares false with everything,
`-inf` is below and `+inf` above every finite value. -/
def PyFloat.lt : PyFloat → PyFloat → Bool
  | .nan, _ => false
  | _, .nan => false
  | .finite a, .finite b => decide (a < b)
  | .finite _, .inf n => !n
  | .inf n, .finite _ => n
  | .inf n1, .inf n2 => n1 && !n2

/-- Python `<=` on floats. -/
def PyFloat.le : PyFloat → PyFloat → Bool
  | .nan, _ => false
  | _, .nan => false
  | .finite a, .finite b => decide (a ≤ b)
  | .finite _, .inf n => !n
  | .inf n, .finite _ => n
  | .inf n1, .inf n2 => n1 || !n2

/-- The ASCII decimal digits. -/
def isPyDigit (c : Char) : Bool := decide ('0' ≤ c) && decide (c ≤ '9')

/-- Numeric value of a decimal digit character. -/
def digitVal (c : Char) : ℕ := c.toNat - 48

/-- Value of a list of decimal digit characters, most significant first. -/
def natOfDigits : List Char → ℕ
  | [] => 0
  | c :: r => digitVal c * 10 ^ r.length + natOfDigits r

/-- Consume a Python `digitpart` (digits with single underscores allowed
between digits) from the front of the input; returns the digits kept (with
underscores removed) and the unconsumed remainder. -/
def digitpartAux : List Char → List Char × List Char
  | [] => ([], [])
  | c :: rest =>
    if isPyDigit c then
      let p := digitpartAux rest
      (c :: p.1, p.2)
    else if c = '_' then
      match rest with
      | [] => ([], [c])
      | c2 :: rest2 =>
        if isPyDigit c2 then
          let p := digitpartAux rest2
          (c2 :: p.1, p.2)
        else ([], c :: rest)
    else ([], c :: rest)

/-- Value of a fraction digit list: `natOfDigits l / 10 ^ length l`. -/
def fracVal (l : List Char) : ℚ := (natOfDigits l : ℚ) / 10 ^ l.length

/-- Parse the mantissa of a Python float literal:
`digitpart ["." [digitpart]]` or `"." digitpart`.  Returns the rational
value and the unconsumed remainder, or `none` when no mantissa is present. -/
def parseMantissa (l : List Char) : Option (ℚ × List Char) :=
  match l with
  | [] => none
  | c :: rest =>
    if c = '.' then
      match rest with
      | [] => none
      | c2 :: _ =>
        if isPyDigit c2 then
          let p := digitpartAux rest
          some (fracVal p.1, p.2)
        else none
    else if isPyDigit c then
      let p := digitpartAux l
      match p.2 with
      | [] => some ((natOfDigits p.1 : ℚ), [])
      | d :: r2 =>
        if d = '.' then
          match r2 with
          | [] => some ((natOfDigits p.1 : ℚ), [])
          | c3 :: _ =>
            if isPyDigit c3 then
              let q := digitpartAux r2
              some ((natOfDigits p.1 : ℚ) + fracVal q.1, q.2)
            else some ((natOfDigits p.1 : ℚ), r2)
        else some ((natOfDigits p.1 : ℚ), d :: r2)
    else none

/-- Parse an optional exponent `("e"|"E") [sign] digitpart`; the first
component is the signed exponent (0 when absent), the second the
unconsumed remainder.  `none` when an `e` is present but malformed. -/
def parseExponent (l : List Char) : Option (ℤ × List Char) :=
  match l with
  | [] => some (0, [])
  | c :: rest =>
    if c = 'e' ∨ c = 'E' then
      let sr : Bool × List Char :=
        match rest with
        | [] => (false, rest)
        | c2 :: r2 => if c2 = '-' then (true, r2) else if c2 = '+' then (false, r2) else (false, rest)
      match sr.2 with
      | [] => none
      | c3 :: _ =>
        if isPyDigit c3 then
          let p := digitpartAux sr.2
          some ((if sr.1 then -(natOfDigits p.1 : ℤ) else (natOfDigits p.1 : ℤ)), p.2)
        else none
    else some (0, l)

/-- Python whitespace characters stripped by `str.rstrip` and `float`. -/
def isPySpace (c : Char) : Bool :=
  c = ' ' || c = '\t' || c = '\n' || c = '\r' || c = '\x0b' || c = '\x0c'

/-- `str.rstrip()`: remove trailing whitespace. -/
def rstripChars (l : List Char) : List Char := (l.reverse.dropWhile isPySpace).reverse

/-- Strip leading and trailing whitespace (as Python `float` does). -/
def stripChars (l : List Char) : List Char := rstripChars (l.dropWhile isPySpace)

/-- Python `float(s)` on a character list: `some` value on success, `none`
when Python would raise `ValueError`. -/
def pythonFloatChars (l : List Char) : Option PyFloat :=
  let t := stripChars l
  let sr : Bool × List Char :=
    match t with
    | [] => (false, t)
    | c :: r => if c = '-' then (true, r) else if c = '+' then (false, r) else (false, t)
  let low := sr.2.map Char.toLower
  if low = ['i', 'n', 'f'] ∨ low = ['i', 'n', 'f', 'i', 'n', 'i', 't', 'y'] then
    some (.inf sr.1)
  else if low = ['n', 'a', 'n'] then
    some .nan
  else
    match parseMantissa sr.2 with
    | none => none
    | some mr =>
      match parseExponent mr.2 with
      | none => none
      | some er =>
        if er.2 = [] then
          some (.finite ((if sr.1 then -mr.1 else mr.1) * (10 : ℚ) ^ er.1))
        else none

/-- Python `float(s)` on a string. -/
def pythonFloat (s : String) : Option PyFloat := pythonFloatChars s.data

/-- The helper `is_float` from the source: `float(string)` succeeds. -/
def is_float (s : String) : Bool := (pythonFloat s).isSome

/-! ## Embedding of `hot-tub-pi-machine.py` -/

/-- `DEFAULT_GOAL_TEMP = 90` from the source. -/
def DEFAULT_GOAL_TEMP : ℚ := 90

/-- `MAXIMUM_TEMP = 104` from the source. -/
def MAXIMUM_TEMP : ℚ := 104

/-- The three GPIO relays of `hot-tub-pi-machine.py`. -/
inductive RelayId where
  | circulationPump
  | jetsPump
  | heater
deriving DecidableEq, Repr

/-- One physical write to a relay: the relay and the commanded level
(`true` = energized / `.on()`, `false` = `.off()`). -/
structure RelayWrite where
  relay : RelayId
  value : Bool
deriving DecidableEq, Repr

/-- HTTP status reported by `set_goal_temp` (200 by default, or
`falcon.HTTP_400` on invalid input). -/
inductive HttpStatus where
  | ok200
  | badRequest400
deriving DecidableEq, Repr

/-- The mutable state of the `HotTub` object in `hot-tub-pi-machine.py`:
the `running` flag, the shared temperature cells, and the last commanded
level of each relay. -/
structure TubState where
  running : Bool
  current_temp : PyFloat
  goal_temp : PyFloat
  circulation_pump_on : Bool
  jets_pump_on : Bool
  heater_on : Bool
deriving DecidableEq, Repr

/-- The state `HotTub.__init__` establishes: `running = True`,
`current_temp = 0`, `goal_temp = DEFAULT_GOAL_TEMP`, relays constructed
de-energized and then the circulation pump commanded on. -/
def initState : TubState :=
  { running := true
    current_temp := .finite 0
    goal_temp := .finite DEFAULT_GOAL_TEMP
    circulation_pump_on := true
    jets_pump_on := false
    heater_on := false }

/-- Object construction: the resulting state together with the relay
writes issued by `__init__` (`self.circulation_pump_relay.on()`). -/
def construct : TubState × List RelayWrite :=
  (initState, [⟨RelayId.circulationPump, true⟩])

/-- `convert_to_fahrenheit` from `read_temp`: `(temp * 9/5) + 32`,
extended to infinities and NaN the way Python float arithmetic behaves. -/
def convert_to_fahrenheit : PyFloat → PyFloat
  | .finite c => .finite (c * 9 / 5 + 32)
  | .inf n => .inf n
  | .nan => .nan

/-- One iteration of the `read_temp` loop body, for a given probe file
content.  The code right-strips the text; an empty result publishes the
sentinel `MAXIMUM_TEMP + 1`; otherwise it evaluates
`float('.'.join((raw_temp[:2], raw_temp[2:])))` and publishes the
Fahrenheit conversion.  A `ValueError` from `float` is uncaught in the
source; the embedding reports it as `Except.error ()`. -/
def read_temp_step (file : String) (s : TubState) : Except Unit TubState :=
  let raw := rstripChars file.data
  if raw = [] then
    .ok { s with current_temp := .finite (MAXIMUM_TEMP + 1) }
  else
    match pythonFloatChars (raw.take 2 ++ '.' :: raw.drop 2) with
    | some c => .ok { s with current_temp := convert_to_fahrenheit c }
    | none => .error ()

/-- The heater condition of `manage_temp`:
`self.current_temp < self.goal_temp <= MAXIMUM_TEMP` (Python chained
comparison, i.e. the conjunction of the two comparisons). -/
def heaterCond (current goal : PyFloat) : Bool :=
  PyFloat.lt current goal && PyFloat.le goal (.finite MAXIMUM_TEMP)

/-- One iteration of the `manage_temp` loop body: it evaluates the
chained comparison and calls `heater_relay.on()` when it holds, else
`heater_relay.off()` — a relay write is issued on every tick. -/
def manage_temp_step (s : TubState) : TubState × List RelayWrite :=
  let cond := heaterCond s.current_temp s.goal_temp
  ({ s with heater_on := cond }, [⟨RelayId.heater, cond⟩])

/-- `set_goal_temp(data, response)`: when `data` is truthy (present and
non-empty) and `is_float(data)` holds, store `float(data)` in
`goal_temp`; otherwise set `response.status = HTTP_400` and leave the
state unchanged. -/
def set_goal_temp (data : Option String) (s : TubState) : TubState × HttpStatus :=
  match data with
  | none => (s, .badRequest400)
  | some d =>
    if d = "" then (s, .badRequest400)
    else
      match pythonFloat d with
      | some v => ({ s with goal_temp := v }, .ok200)
      | none => (s, .badRequest400)

/-- `get_goal_temp`: returns the stored goal. -/
def get_goal_temp (s : TubState) : PyFloat := s.goal_temp

/-- `toggle_jets_active`: `self.jets_pump_relay.toggle()`. -/
def toggle_jets_active (s : TubState) : TubState × List RelayWrite :=
  ({ s with jets_pump_on := !s.jets_pump_on }, [⟨RelayId.jetsPump, !s.jets_pump_on⟩])

/-- The mutating operations that can run while the process is live
(everything except the `stop` handler). -/
inductive ApiOp where
  | setGoal (data : Option String)
  | toggleJets
  | readTick (file : String)
  | manageTick

/-- Apply one live operation, collecting the relay writes it issues.  A
`readTick` whose parse raises leaves the state unchanged (the assignment
to `current_temp` never executes). -/
def applyOp : ApiOp → TubState → TubState × List RelayWrite
  | .setGoal data, s => ((set_goal_temp data s).1, [])
  | .toggleJets, s => toggle_jets_active s
  | .readTick f, s =>
    match read_temp_step f s with
    | .ok s2 => (s2, [])
    | .error _ => (s, [])
  | .manageTick, s => manage_temp_step s

/-- Run a sequence of live operations from a starting state. -/
def runOps (ops : List ApiOp) (s : TubState) : TubState :=
  ops.foldl (fun st op => (applyOp op st).1) s

/-- The observable events of the `stop` handler, in program order. -/
inductive StopEvent where
  | clearRunning
  | joinReadTemp
  | joinManageTemp
  | relayWrite (w : RelayWrite)
  | exitProcess
deriving DecidableEq, Repr

/-- The event sequence of `stop`: clear `self.running`, join the two
loop threads, then command each relay off, then `exit()`. -/
def stopTrace : List StopEvent :=
  [.clearRunning, .joinReadTemp, .joinManageTemp,
   .relayWrite ⟨RelayId.circulationPump, false⟩,
   .relayWrite ⟨RelayId.jetsPump, false⟩,
   .relayWrite ⟨RelayId.heater, false⟩,
   .exitProcess]

/-- The `stop` signal handler: final state plus its event trace. -/
def stop (s : TubState) : TubState × List StopEvent :=
  ({ s with running := false
            circulation_pump_on := false
            jets_pump_on := false
            heater_on := false },
   stopTrace)

/-- Whether a stop event is a relay de-energize command. -/
def isRelayOffEvent : StopEvent → Bool
  | .relayWrite w => w.value = false
  | _ => false

/-- Whether a stop event is one of the two thread joins. -/
def isJoinEvent : StopEvent → Bool
  | .joinReadTemp => true
  | .joinManageTemp => true
  | _ => false

/-- The `while self.running` sensor loop over a queue of probe file
contents: stops as soon as the running flag is observed false, and
aborts with the uncaught exception if a tick raises. -/
def read_temp_loop : List String → TubState → Except Unit TubState
  | [], s => .ok s
  | f :: fs, s =>
    if s.running then
      match read_temp_step f s with
      | .ok s2 => read_temp_loop fs s2
      | .error e => .error e
    else .ok s

/-- The `while self.running` control loop, run for at most `n`
iterations: stops as soon as the running flag is observed false,
accumulating the relay writes issued. -/
def manage_temp_loop : ℕ → TubState → TubState × List RelayWrite
  | 0, s => (s, [])
  | n + 1, s =>
    if s.running then
      let st := manage_temp_step s
      let rest := manage_temp_loop n st.1
      (rest.1, st.2 ++ rest.2)
    else (s, [])

/-! ## Embedding of the earlier draft `main.py` -/

namespace MainPy

/-- The mutable state of the `HotTub` object in `main.py`: temperature
cells, the jets flag, and the tracked `heater_active` flag mirroring the
heater relay. -/
structure State where
  current_temp : PyFloat
  goal_temp : PyFloat
  jets_active : Bool
  heater_active : Bool
deriving DecidableEq, Repr

/-- `__init__` of `main.py`: temperatures 0, flags false. -/
def initState : State :=
  { current_temp := .finite 0
    goal_temp := .finite 0
    jets_active := false
    heater_active := false }

/-- `toggle_heater(enabled)`: record the commanded state in
`heater_active` and write the heater relay accordingly. -/
def toggle_heater (enabled : Bool) (s : State) : State × List RelayWrite :=
  ({ s with heater_active := enabled }, [⟨RelayId.heater, enabled⟩])

/-- The target heater state the `main.py` control loop drives toward:
`current_temp < goal_temp` (no ceiling in this draft). -/
def heaterTarget (s : State) : Bool :=
  PyFloat.lt s.current_temp s.goal_temp

/-- One iteration of `main.py`'s `manage_temp` loop body: call
`toggle_heater` only when the target differs from the tracked
`heater_active` flag. -/
def manage_temp_step (s : State) : State × List RelayWrite :=
  if PyFloat.lt s.current_temp s.goal_temp then
    if s.heater_active then (s, []) else toggle_heater true s
  else
    if s.heater_active then toggle_heater false s else (s, [])

end MainPy

/-! ## Sanity checks of the `float` parser against Python behaviour -/

example : pythonFloat "" = none := by decide
example : pythonFloat "abc" = none := by decide
example : pythonFloat "inf" = some (.inf false) := by decide
example : pythonFloat "-Infinity" = some (.inf true) := by decide
example : pythonFloat "nan" = some .nan := by decide
example : pythonFloat "1_." = none := by decide
example : pythonFloat "." = none := by decide
example : pythonFloat "1e" = none := by decide

example : pythonFloat "95.5" = some (.finite (191 / 2)) := by
  simp +decide [pythonFloat, pythonFloatChars, stripChars, rstripChars, parseMantissa,
    parseExponent, digitpartAux, fracVal, natOfDigits, digitVal, isPyDigit, isPySpace]
  norm_num

example : pythonFloat " -2e3 " = some (.finite (-2000)) := by
  simp +decide [pythonFloat, pythonFloatChars, stripChars, rstripChars, parseMantissa,
    parseExponent, digitpartAux, fracVal, natOfDigits, digitVal, isPyDigit, isPySpace]
  norm_num

example : pythonFloat "21.562" = some (.finite (21562 / 1000)) := by
  simp +decide [pythonFloat, pythonFloatChars, stripChars, rstripChars, parseMantissa,
    parseExponent, digitpartAux, fracVal, natOfDigits, digitVal, isPyDigit, isPySpace]
  norm_num

example : pythonFloat "1_0.5" = some (.finite (21 / 2)) := by
  simp +decide [pythonFloat, pythonFloatChars, stripChars, rstripChars, parseMantissa,
    parseExponent, digitpartAux, fracVal, natOfDigits, digitVal, isPyDigit, isPySpace]
  norm_num

example : pythonFloat "1e-2" = some (.finite (1 / 100)) := by
  simp +decide [pythonFloat, pythonFloatChars, stripChars, rstripChars, parseMantissa,
    parseExponent, digitpartAux, fracVal, natOfDigits, digitVal, isPyDigit, isPySpace]
  norm_num

example : convert_to_fahrenheit (.finite (21562 / 1000)) = .finite (708116 / 10000) := by
  simp [convert_to_fahrenheit]
  norm_num

/-! ## Helper lemmas -/

/-- A decimal digit is none of the special characters of the float
grammar. -/
theorem digit_ne_special (c : Char) (h : isPyDigit c = true) :
    c ≠ '-' ∧ c ≠ '+' ∧ c ≠ '.' ∧ c ≠ '_' := by
  simp only [isPyDigit, Bool.and_eq_true, decide_eq_true_eq] at h
  obtain ⟨h1, h2⟩ := h
  refine ⟨?_, ?_, ?_, ?_⟩ <;> (intro he; subst he; revert h1 h2; decide)

/-- A decimal digit is not Python whitespace. -/
theorem not_space_of_digit (c : Char) (h : isPyDigit c = true) :
    isPySpace c = false := by
  simp only [isPyDigit, Bool.and_eq_true, decide_eq_true_eq] at h
  obtain ⟨h1, h2⟩ := h
  simp only [isPySpace, Bool.or_eq_false_iff, decide_eq_false_iff_not]
  refine ⟨⟨⟨⟨⟨?_, ?_⟩, ?_⟩, ?_⟩, ?_⟩, ?_⟩ <;> (intro he; subst he; revert h1 h2; decide)

/-- `dropWhile` is the identity when no element satisfies the predicate. -/
theorem dropWhile_of_none (p : Char → Bool) (l : List Char)
    (h : ∀ c ∈ l, p c = false) : l.dropWhile p = l := by
  cases l with
  | nil => rfl
  | cons c r => simp [List.dropWhile_cons, h c (by simp)]

/-- Stripping whitespace is the identity on whitespace-free text. -/
theorem stripChars_of_no_space (l : List Char) (h : ∀ c ∈ l, isPySpace c = false) :
    stripChars l = l := by
  unfold stripChars rstripChars
  rw [dropWhile_of_none _ l h, dropWhile_of_none _ l.reverse
    (fun c hc => h c (List.mem_reverse.mp hc)), List.reverse_reverse]

/-- Right-stripping whitespace is the identity on whitespace-free text. -/
theorem rstripChars_of_no_space (l : List Char) (h : ∀ c ∈ l, isPySpace c = false) :
    rstripChars l = l := by
  unfold rstripChars
  rw [dropWhile_of_none _ l.reverse (fun c hc => h c (List.mem_reverse.mp hc)),
    List.reverse_reverse]

/-- `digitpartAux` consumes exactly a leading block of digits, stopping at
a dot. -/
theorem digitpartAux_append_dot (a b : List Char)
    (ha : ∀ c ∈ a, isPyDigit c = true) :
    digitpartAux (a ++ '.' :: b) = (a, '.' :: b) := by
  induction a with
  | nil =>
    show digitpartAux ('.' :: b) = ([], '.' :: b)
    unfold digitpartAux
    simp +decide
  | cons c a2 ih =>
    have hc : isPyDigit c = true := ha c (by simp)
    show digitpartAux (c :: (a2 ++ '.' :: b)) = (c :: a2, '.' :: b)
    unfold digitpartAux
    simp [hc, ih (fun x hx => ha x (by simp [hx]))]

/-- `digitpartAux` consumes an all-digit list entirely. -/
theorem digitpartAux_all (a : List Char) (ha : ∀ c ∈ a, isPyDigit c = true) :
    digitpartAux a = (a, []) := by
  induction a with
  | nil => rfl
  | cons c a2 ih =>
    have hc : isPyDigit c = true := ha c (by simp)
    show digitpartAux (c :: a2) = (c :: a2, [])
    unfold digitpartAux
    simp [hc, ih (fun x hx => ha x (by simp [hx]))]

/-- Value of concatenated digit lists. -/
theorem natOfDigits_append (a b : List Char) :
    natOfDigits (a ++ b) = natOfDigits a * 10 ^ b.length + natOfDigits b := by
  induction a with
  | nil => simp [natOfDigits]
  | cons c a2 ih =>
    simp only [List.cons_append, natOfDigits, List.append_eq, List.length_append, ih, pow_add]
    ring

/-- The heater condition of `hot-tub-pi-machine.py` is false whenever the
current temperature is at or above the ceiling or the goal exceeds it. -/
theorem heaterCond_false_of_ceiling (c g : PyFloat)
    (h : PyFloat.le (.finite MAXIMUM_TEMP) c = true ∨
         PyFloat.lt (.finite MAXIMUM_TEMP) g = true) :
    heaterCond c g = false := by
  unfold heaterCond
  cases c with
  | nan => cases g <;> simp [PyFloat.lt]
  | inf n =>
    cases g with
    | nan => simp [PyFloat.le]
    | inf m => cases n <;> cases m <;> simp [PyFloat.lt, PyFloat.le]
    | finite b =>
      cases n with
      | false => simp [PyFloat.lt]
      | true =>
        simp only [PyFloat.lt, PyFloat.le, Bool.not_true, MAXIMUM_TEMP,
          decide_eq_true_eq] at h
        rcases h with h | h
        · exact absurd h (by decide)
        · simp [PyFloat.lt, PyFloat.le, MAXIMUM_TEMP]
          linarith
  | finite a =>
    cases g with
    | nan => simp [PyFloat.le]
    | inf m => cases m <;> simp [PyFloat.lt, PyFloat.le]
    | finite b =>
      simp only [PyFloat.lt, PyFloat.le, MAXIMUM_TEMP, decide_eq_true_eq] at h
      simp only [PyFloat.lt, PyFloat.le, MAXIMUM_TEMP, Bool.and_eq_false_iff,
        decide_eq_false_iff_not]
      by_cases hab : a < b
      · right; rcases h with h | h <;> intro hb <;> linarith
      · left; exact hab

/-- `parseMantissa` on a digit block, a dot, and a second digit block. -/
theorem parseMantissa_digits_dot (a b : List Char) (hne : a ≠ [])
    (ha : ∀ c ∈ a, isPyDigit c = true) (hb : ∀ c ∈ b, isPyDigit c = true) :
    parseMantissa (a ++ '.' :: b) =
      some ((natOfDigits a : ℚ) + (natOfDigits b : ℚ) / 10 ^ b.length, []) := by
  obtain ⟨c0, a2, rfl⟩ : ∃ c0 a2, a = c0 :: a2 := by
    cases a with
    | nil => exact absurd rfl hne
    | cons x y => exact ⟨x, y, rfl⟩
  have hc0 : isPyDigit c0 = true := ha c0 (by simp)
  have hspec := digit_ne_special c0 hc0
  have hdp : digitpartAux (c0 :: a2 ++ '.' :: b) = (c0 :: a2, '.' :: b) :=
    digitpartAux_append_dot (c0 :: a2) b ha
  show parseMantissa (c0 :: (a2 ++ '.' :: b)) = _
  unfold parseMantissa
  simp only [List.cons_append] at hdp
  simp only [hspec.2.2.1, if_false, hc0, if_true, hdp]
  cases b with
  | nil => simp [natOfDigits]
  | cons c3 b2 =>
    have hc3 : isPyDigit c3 = true := hb c3 (by simp)
    have hdp2 : digitpartAux (c3 :: b2) = (c3 :: b2, []) := digitpartAux_all _ hb
    simp [hc3, hdp2, fracVal]

/-- Python `float` on a digit block, a dot, and a second digit block:
the value is `intpart + fracpart / 10 ^ fraclen`. -/
theorem pythonFloatChars_digits_dot (a b : List Char) (hne : a ≠ [])
    (ha : ∀ c ∈ a, isPyDigit c = true) (hb : ∀ c ∈ b, isPyDigit c = true) :
    pythonFloatChars (a ++ '.' :: b) =
      some (.finite ((natOfDigits a : ℚ) + (natOfDigits b : ℚ) / 10 ^ b.length)) := by
  obtain ⟨c0, a2, rfl⟩ : ∃ c0 a2, a = c0 :: a2 := by
    cases a with
    | nil => exact absurd rfl hne
    | cons x y => exact ⟨x, y, rfl⟩
  have hc0 : isPyDigit c0 = true := ha c0 (by simp)
  have hspec := digit_ne_special c0 hc0
  have hstrip : stripChars ((c0 :: a2) ++ '.' :: b) = (c0 :: a2) ++ '.' :: b := by
    apply stripChars_of_no_space
    intro c hcmem
    rcases List.mem_append.mp hcmem with h | h
    · exact not_space_of_digit c (ha c h)
    · rcases List.mem_cons.mp h with rfl | h
      · decide
      · exact not_space_of_digit c (hb c h)
  have hm := parseMantissa_digits_dot (c0 :: a2) b (by simp) ha hb
  unfold pythonFloatChars
  simp only [List.cons_append] at hstrip hm
  have hdot2 : ('.' : Char) ∈ List.map Char.toLower a2 ++ '.' :: List.map Char.toLower b := by
    simp
  have g1 : List.map Char.toLower a2 ++ '.' :: List.map Char.toLower b ≠ ['n', 'f'] :=
    fun h => absurd (h ▸ hdot2) (by decide)
  have g2 : List.map Char.toLower a2 ++ '.' :: List.map Char.toLower b ≠
      ['n', 'f', 'i', 'n', 'i', 't', 'y'] :=
    fun h => absurd (h ▸ hdot2) (by decide)
  have g3 : List.map Char.toLower a2 ++ '.' :: List.map Char.toLower b ≠ ['a', 'n'] :=
    fun h => absurd (h ▸ hdot2) (by decide)
  simp [hstrip, hspec.1, hspec.2.1, hm, parseExponent, g1, g2, g3]

/-- A successful `read_temp` step only replaces `current_temp`; every
other field of the state is untouched. -/
theorem read_temp_step_fields (f : String) (s s2 : TubState)
    (h : read_temp_step f s = .ok s2) :
    s2.running = s.running ∧ s2.goal_temp = s.goal_temp ∧
    s2.circulation_pump_on = s.circulation_pump_on ∧
    s2.jets_pump_on = s.jets_pump_on ∧ s2.heater_on = s.heater_on := by
  simp only [read_temp_step] at h
  split at h
  · have h2 := Except.ok.inj h
    subst h2
    simp
  · split at h
    · have h2 := Except.ok.inj h
      subst h2
      simp
    · exact Except.noConfusion h

/-- `read_temp` on an all-digit sample of length ≥ 2: the decimal point
is inserted after the first two characters, so the published reading is
the Fahrenheit conversion of `natOfDigits l / 10 ^ (length l - 2)`. -/
theorem read_temp_step_digits (l : List Char) (s : TubState)
    (hd : ∀ c ∈ l, isPyDigit c = true) (hlen : 2 ≤ l.length) :
    read_temp_step (String.mk l) s =
      .ok { s with current_temp :=
        convert_to_fahrenheit (.finite ((natOfDigits l : ℚ) / 10 ^ (l.length - 2))) } := by
  have hraw : rstripChars (String.mk l).data = l :=
    rstripChars_of_no_space l (fun c hc => not_space_of_digit c (hd c hc))
  have hnil : l ≠ [] := by
    intro h
    subst h
    simp at hlen
  have hne : l.take 2 ≠ [] := by
    have hl2 : (l.take 2).length = 2 := by
      rw [List.length_take]
      omega
    intro h
    rw [h] at hl2
    simp at hl2
  have hpf := pythonFloatChars_digits_dot (l.take 2) (l.drop 2) hne
    (fun c hc => hd c (List.take_subset 2 l hc))
    (fun c hc => hd c (List.drop_subset 2 l hc))
  have hval : (natOfDigits (l.take 2) : ℚ) +
      (natOfDigits (l.drop 2) : ℚ) / 10 ^ (l.drop 2).length =
      (natOfDigits l : ℚ) / 10 ^ (l.length - 2) := by
    have hsplit : natOfDigits l =
        natOfDigits (l.take 2) * 10 ^ (l.drop 2).length + natOfDigits (l.drop 2) := by
      conv_lhs => rw [← List.take_append_drop 2 l]
      exact natOfDigits_append _ _
    have hld : (l.drop 2).length = l.length - 2 := by simp
    have h10 : ((10 : ℚ) ^ (l.length - 2)) ≠ 0 := by positivity
    rw [hsplit, hld]
    field_simp
  simp only [read_temp_step, hraw, if_neg hnil, hpf, hval]

/-! ## Claim theorems -/

/-- C1: on every control tick of `hot-tub-pi-machine.py`, if the shared
current temperature is at or above `MAXIMUM_TEMP` (104 °F) or the stored
goal temperature exceeds `MAXIMUM_TEMP`, the tick never commands the
heater relay on, regardless of the stored goal value. -/
theorem C1_ceiling_gates_heater (s : TubState)
    (h : PyFloat.le (.finite MAXIMUM_TEMP) s.current_temp = true ∨
         PyFloat.lt (.finite MAXIMUM_TEMP) s.goal_temp = true) :
    RelayWrite.mk RelayId.heater true ∉ (manage_temp_step s).2 := by
  have hc := heaterCond_false_of_ceiling s.current_temp s.goal_temp h
  simp [manage_temp_step, hc]

/-- Witness for C1 at current = 104 °F, goal = 90 °F. -/
theorem C1_ceiling_gates_heater_witness :
    (PyFloat.le (.finite MAXIMUM_TEMP)
        (TubState.mk true (.finite 104) (.finite 90) true false false).current_temp = true ∨
      PyFloat.lt (.finite MAXIMUM_TEMP)
        (TubState.mk true (.finite 104) (.finite 90) true false false).goal_temp = true) ∧
    RelayWrite.mk RelayId.heater true ∉
      (manage_temp_step (TubState.mk true (.finite 104) (.finite 90) true false false)).2 := by
  have hle : PyFloat.le (.finite MAXIMUM_TEMP)
      (TubState.mk true (.finite 104) (.finite 90) true false false).current_temp = true := by
    simp [PyFloat.le, MAXIMUM_TEMP]
  exact ⟨Or.inl hle, C1_ceiling_gates_heater _ (Or.inl hle)⟩

/-- C2 counterexample: with current 85 < goal 90 ≤ 104 and the heater
relay already on, the tick of `hot-tub-pi-machine.py` still issues an ON
command — the claim's "and the heater is not already on" gating does not
exist in this code, which writes the relay on every tick. -/
theorem C2_redundant_write_cex :
    (TubState.mk true (.finite 85) (.finite 90) true false true).heater_on = true ∧
    (manage_temp_step (TubState.mk true (.finite 85) (.finite 90) true false true)).2 =
      [RelayWrite.mk RelayId.heater true] := by
  refine ⟨rfl, ?_⟩
  have hc : heaterCond (.finite 85) (.finite 90) = true := by
    simp [heaterCond, PyFloat.lt, PyFloat.le, MAXIMUM_TEMP]
    norm_num
  simp [manage_temp_step, hc]

/-- C2 (amended): on every tick of `hot-tub-pi-machine.py` with finite
current and goal temperatures, the heater relay is commanded ON exactly
when `current < goal ≤ 104`, and commanded OFF exactly otherwise; the
command is issued every tick regardless of the heater's present state. -/
theorem C2_tick_command_iff (s : TubState) (c g : ℚ)
    (hc : s.current_temp = .finite c) (hg : s.goal_temp = .finite g) :
    (RelayWrite.mk RelayId.heater true ∈ (manage_temp_step s).2 ↔
      (c < g ∧ g ≤ MAXIMUM_TEMP)) ∧
    (RelayWrite.mk RelayId.heater false ∈ (manage_temp_step s).2 ↔
      ¬(c < g ∧ g ≤ MAXIMUM_TEMP)) := by
  by_cases h1 : c < g
  · by_cases h2 : g ≤ MAXIMUM_TEMP
    · simp [manage_temp_step, heaterCond, hc, hg, PyFloat.lt, PyFloat.le,
        MAXIMUM_TEMP, h1, h2]
    · simp [manage_temp_step, heaterCond, hc, hg, PyFloat.lt, PyFloat.le,
        MAXIMUM_TEMP, h1, h2]
  · simp [manage_temp_step, heaterCond, hc, hg, PyFloat.lt, PyFloat.le,
      MAXIMUM_TEMP, h1]

/-- Witness for C2 (amended) at current 80 < goal 95 ≤ 104. -/
theorem C2_tick_command_iff_witness :
    RelayWrite.mk RelayId.heater true ∈
      (manage_temp_step (TubState.mk true (.finite 80) (.finite 95) true false false)).2 :=
  ((C2_tick_command_iff (TubState.mk true (.finite 80) (.finite 95) true false false)
      80 95 rfl rfl).1).mpr (by norm_num [MAXIMUM_TEMP])

/-- C3: reading an empty sample publishes the sentinel
`MAXIMUM_TEMP + 1` (105 °F) instead of failing, and a control tick at the
sentinel never commands the heater ON and always commands it OFF, for
every goal value. -/
theorem C3_empty_sample_failsafe :
    (∀ s : TubState, read_temp_step "" s =
      .ok { s with current_temp := .finite (MAXIMUM_TEMP + 1) }) ∧
    (∀ s : TubState, s.current_temp = .finite (MAXIMUM_TEMP + 1) →
      RelayWrite.mk RelayId.heater true ∉ (manage_temp_step s).2 ∧
      RelayWrite.mk RelayId.heater false ∈ (manage_temp_step s).2) := by
  constructor
  · intro s
    rfl
  · intro s hs
    have hc : heaterCond s.current_temp s.goal_temp = false := by
      apply heaterCond_false_of_ceiling
      left
      rw [hs]
      simp [PyFloat.le, MAXIMUM_TEMP]
    constructor <;> simp [manage_temp_step, hc]

/-- Witness for C3: at the sentinel reading the tick commands OFF. -/
theorem C3_empty_sample_failsafe_witness :
    RelayWrite.mk RelayId.heater false ∈
      (manage_temp_step (TubState.mk true (.finite (MAXIMUM_TEMP + 1)) (.finite 90)
        true false false)).2 :=
  (C3_empty_sample_failsafe.2 _ rfl).2

/-- C4: a malformed non-empty sample ("ab") makes the float conversion
raise `ValueError`, so the `read_temp` step fails instead of skipping the
tick, and the sensor loop aborts instead of continuing to the next
(well-formed) sample. -/
theorem C4_malformed_sample_crashes :
    read_temp_step "ab" initState = Except.error () ∧
    read_temp_loop ["ab", "21562"] initState = Except.error () := by
  constructor <;> rfl

/-- C5 counterexample: for the 4-digit raw text "1234" the code publishes
the Fahrenheit conversion of 12.34 °C — the decimal point goes after the
first two characters — and not of 1.234 °C = 1234/1000 as the claim's
divide-by-1000 reading predicts. -/
theorem C5_not_divide_by_1000_cex :
    read_temp_step "1234" initState =
      .ok { initState with current_temp :=
        convert_to_fahrenheit (.finite ((1234 : ℚ) / 100)) } ∧
    read_temp_step "1234" initState ≠
      .ok { initState with current_temp :=
        convert_to_fahrenheit (.finite ((1234 : ℚ) / 1000)) } := by
  have hs : ("1234" : String) = String.mk ['1', '2', '3', '4'] := rfl
  have h := read_temp_step_digits ['1', '2', '3', '4'] initState (by decide) (by decide)
  have hv0 : natOfDigits ['1', '2', '3', '4'] = 1234 := by decide
  have hv : (natOfDigits ['1', '2', '3', '4'] : ℚ) / 10 ^ (List.length ['1', '2', '3', '4'] - 2)
      = (1234 : ℚ) / 100 := by
    rw [hv0]
    norm_num
  rw [hv] at h
  rw [hs]
  refine ⟨h, ?_⟩
  rw [h]
  intro heq
  have h2 := Except.ok.inj heq
  have h3 : convert_to_fahrenheit (.finite ((1234 : ℚ) / 100)) =
      convert_to_fahrenheit (.finite ((1234 : ℚ) / 1000)) := congrArg TubState.current_temp h2
  simp [convert_to_fahrenheit] at h3
  norm_num at h3

/-- C5 (amended): for every all-digit raw probe text of length ≥ 2, the
parse inserts a decimal point after the first two characters, giving
Celsius `raw / 10 ^ (len - 2)`, and publishes its Fahrenheit conversion
`C * 9/5 + 32`.  For 5-digit samples this coincides with the claim's
divide-by-1000 reading ("21562" → 21.562 °C). -/
theorem C5_point_after_first_two_chars (l : List Char) (s : TubState)
    (hd : ∀ c ∈ l, isPyDigit c = true) (hlen : 2 ≤ l.length) :
    read_temp_step (String.mk l) s =
      .ok { s with current_temp :=
        convert_to_fahrenheit (.finite ((natOfDigits l : ℚ) / 10 ^ (l.length - 2))) } ∧
    (l.length = 5 →
      read_temp_step (String.mk l) s =
        .ok { s with current_temp :=
          convert_to_fahrenheit (.finite ((natOfDigits l : ℚ) / 1000)) }) := by
  have h := read_temp_step_digits l s hd hlen
  refine ⟨h, fun h5 => ?_⟩
  rw [h, h5]
  norm_num

/-- Witness for C5 (amended) at the raw sample "21562": the published
reading is F(21562/1000) = F(21.562 °C) = 70.8116 °F. -/
theorem C5_point_after_first_two_chars_witness :
    read_temp_step (String.mk ['2', '1', '5', '6', '2']) initState =
      .ok { initState with current_temp :=
        convert_to_fahrenheit (.finite ((natOfDigits ['2', '1', '5', '6', '2'] : ℚ) / 1000)) } :=
  (C5_point_after_first_two_chars ['2', '1', '5', '6', '2'] initState
    (by decide) (by decide)).2 rfl

/-- C6 counterexample: the body "inf" is not parseable as a finite
number, yet `set_goal_temp` accepts it (no 400 response) and stores the
non-finite value +inf in the goal cell. -/
theorem C6_accepts_inf_cex :
    (set_goal_temp (some "inf") initState).2 = HttpStatus.ok200 ∧
    (set_goal_temp (some "inf") initState).1.goal_temp = PyFloat.inf false := by
  constructor <;> rfl

/-- C6 (amended): `set_goal_temp` reports a 400 error exactly when the
body is absent, empty, or rejected by Python float parsing (which also
accepts the non-finite inputs "inf" and "nan"); on failure the whole
state, in particular the goal cell, is unchanged; on success the goal
cell holds the parsed value and `get_goal_temp` returns it. -/
theorem C6_set_goal_validation (data : Option String) (s : TubState) :
    ((set_goal_temp data s).2 = .badRequest400 ↔
      (data = none ∨ data = some "" ∨ ∃ d, data = some d ∧ pythonFloat d = none)) ∧
    ((set_goal_temp data s).2 = .badRequest400 → (set_goal_temp data s).1 = s) ∧
    (∀ (d : String) (v : PyFloat), data = some d → d ≠ "" → pythonFloat d = some v →
      (set_goal_temp data s).1.goal_temp = v ∧
      get_goal_temp (set_goal_temp data s).1 = v ∧
      (set_goal_temp data s).2 = .ok200) := by
  cases data with
  | none => simp [set_goal_temp]
  | some d =>
    by_cases hd : d = ""
    · subst hd
      simp only [set_goal_temp, if_pos rfl]
      refine ⟨by simp, fun _ => rfl, ?_⟩
      intro d2 v heq hne2 hv
      exact absurd (Option.some.inj heq).symm hne2
    · cases hpf : pythonFloat d with
      | none =>
        refine ⟨?_, ?_, ?_⟩
        · simp [set_goal_temp, hd, hpf]
        · intro
          simp [set_goal_temp, hd, hpf]
        · intro d2 v heq hne2 hv
          have hdd : d = d2 := Option.some.inj heq
          subst hdd
          rw [hpf] at hv
          exact Option.noConfusion hv
      | some v0 =>
        refine ⟨?_, ?_, ?_⟩
        · simp [set_goal_temp, hd, hpf]
        · simp [set_goal_temp, hd, hpf]
        · intro d2 v heq hne2 hv
          have hdd : d = d2 := Option.some.inj heq
          subst hdd
          rw [hpf] at hv
          have hvv : v0 = v := Option.some.inj hv
          subst hvv
          simp [set_goal_temp, hd, hpf, get_goal_temp]

/-- Witness for C6 (amended): the round trip "95.5" → goal 95.5. -/
theorem C6_set_goal_validation_witness :
    (set_goal_temp (some "95.5") initState).1.goal_temp = .finite (191 / 2) ∧
    get_goal_temp (set_goal_temp (some "95.5") initState).1 = .finite (191 / 2) ∧
    (set_goal_temp (some "95.5") initState).2 = .ok200 :=
  (C6_set_goal_validation (some "95.5") initState).2.2 "95.5" (.finite (191 / 2)) rfl
    (by decide)
    (by
      simp +decide [pythonFloat, pythonFloatChars, stripChars, rstripChars, parseMantissa,
        parseExponent, digitpartAux, fracVal, natOfDigits, digitVal, isPyDigit, isPySpace]
      norm_num)

/-- C7: in `main.py`, a control tick whose target heater state equals the
tracked `heater_active` flag performs no relay write at all, and two
consecutive tick evaluations with unchanged temperature inputs issue at
most one relay write (the second evaluation never writes). -/
theorem C7_no_redundant_relay_write (s : MainPy.State) :
    (MainPy.manage_temp_step s).2.length ≤ 1 ∧
    (MainPy.heaterTarget s = s.heater_active → (MainPy.manage_temp_step s).2 = []) ∧
    (MainPy.manage_temp_step ((MainPy.manage_temp_step s).1)).2 = [] ∧
    (MainPy.manage_temp_step s).2.length +
      (MainPy.manage_temp_step ((MainPy.manage_temp_step s).1)).2.length ≤ 1 := by
  cases hl : PyFloat.lt s.current_temp s.goal_temp <;>
    cases hh : s.heater_active <;>
      simp [MainPy.manage_temp_step, MainPy.toggle_heater, MainPy.heaterTarget, hl, hh]

/-- Witness for C7 at the initial state of `main.py` (target off, flag
off): the tick issues no relay write. -/
theorem C7_no_redundant_relay_write_witness :
    (MainPy.manage_temp_step MainPy.initState).2 = [] :=
  (C7_no_redundant_relay_write MainPy.initState).2.1
    (by simp [MainPy.heaterTarget, MainPy.initState, PyFloat.lt])

/-- C8: `stop` clears the running flag first, joins both loop threads
before any relay de-energize command, ends with every relay commanded
off, and a loop that observes `running = false` performs no further
iteration, so de-energizing never precedes loop shutdown. -/
theorem C8_shutdown_order (s : TubState) :
    ((stop s).1.running = false ∧ (stop s).1.circulation_pump_on = false ∧
      (stop s).1.jets_pump_on = false ∧ (stop s).1.heater_on = false) ∧
    (stop s).2 = stopTrace ∧
    (stop s).2.head? = some StopEvent.clearRunning ∧
    (∀ i j : Fin stopTrace.length,
      isRelayOffEvent (stopTrace.get i) = true →
      isJoinEvent (stopTrace.get j) = true → j < i) ∧
    (∀ (fs : List String) (s2 : TubState), s2.running = false →
      read_temp_loop fs s2 = .ok s2) ∧
    (∀ (n : ℕ) (s2 : TubState), s2.running = false →
      manage_temp_loop n s2 = (s2, [])) := by
  refine ⟨⟨rfl, rfl, rfl, rfl⟩, rfl, rfl, by decide, ?_, ?_⟩
  · intro fs s2 h2
    cases fs with
    | nil => rfl
    | cons f fs2 => simp [read_temp_loop, h2]
  · intro n s2 h2
    cases n with
    | zero => rfl
    | succ m => simp [manage_temp_loop, h2]

/-- Witness for C8: after `stop`, both loops perform no iteration. -/
theorem C8_shutdown_order_witness :
    read_temp_loop ["21562"] ((stop initState).1) = .ok ((stop initState).1) ∧
    manage_temp_loop 3 ((stop initState).1) = ((stop initState).1, []) := by
  have h := C8_shutdown_order initState
  exact ⟨h.2.2.2.2.1 ["21562"] ((stop initState).1) h.1.1,
    h.2.2.2.2.2 3 ((stop initState).1) h.1.1⟩

/-- C9: the circulation pump relay is commanded on at construction, no
live operation (goal set, jets toggle, sensor tick, control tick) writes
it off or changes its commanded state, every sequence of live operations
from startup leaves it on, and only the `stop` handler writes it off. -/
theorem C9_circulation_always_on :
    construct.1.circulation_pump_on = true ∧
    RelayWrite.mk RelayId.circulationPump true ∈ construct.2 ∧
    (∀ (op : ApiOp) (s : TubState),
      ((applyOp op s).1).circulation_pump_on = s.circulation_pump_on ∧
      RelayWrite.mk RelayId.circulationPump false ∉ (applyOp op s).2) ∧
    (∀ ops : List ApiOp, (runOps ops initState).circulation_pump_on = true) ∧
    (∀ s : TubState, StopEvent.relayWrite ⟨RelayId.circulationPump, false⟩ ∈ (stop s).2) := by
  have hpres : ∀ (op : ApiOp) (s : TubState),
      ((applyOp op s).1).circulation_pump_on = s.circulation_pump_on ∧
      RelayWrite.mk RelayId.circulationPump false ∉ (applyOp op s).2 := by
    intro op s
    cases op with
    | setGoal data =>
      refine ⟨?_, by simp [applyOp]⟩
      cases data with
      | none => rfl
      | some d =>
        simp only [applyOp, set_goal_temp]
        by_cases hd : d = ""
        · simp [hd]
        · cases hpf : pythonFloat d <;> simp [hd, hpf]
    | toggleJets => exact ⟨rfl, by simp [applyOp, toggle_jets_active]⟩
    | readTick f =>
      cases hr : read_temp_step f s with
      | ok s2 =>
        refine ⟨?_, ?_⟩
        · simp only [applyOp, hr]
          exact (read_temp_step_fields f s s2 hr).2.2.1
        · simp [applyOp, hr]
      | error e =>
        refine ⟨?_, ?_⟩
        · simp [applyOp, hr]
        · simp [applyOp, hr]
    | manageTick => exact ⟨rfl, by simp [applyOp, manage_temp_step]⟩
  have key : ∀ (ops : List ApiOp) (s : TubState),
      (runOps ops s).circulation_pump_on = s.circulation_pump_on := by
    intro ops
    induction ops with
    | nil => intro s; rfl
    | cons op rest ih =>
      intro s
      show (runOps rest (applyOp op s).1).circulation_pump_on = _
      rw [ih (applyOp op s).1, (hpres op s).1]
  exact ⟨rfl, by simp [construct], hpres,
    fun ops => key ops initState, fun s => by simp [stop, stopTrace]⟩

/-- C10: until the first sensor publish the shared cell holds the
initialization value 0 and the default goal is 90 ≤ 104, so a control
tick in that state commands the heater ON on the placeholder value. -/
theorem C10_startup_tick_heats (s : TubState)
    (hc : s.current_temp = .finite 0) (hg : s.goal_temp = .finite DEFAULT_GOAL_TEMP) :
    initState.current_temp = .finite 0 ∧
    initState.goal_temp = .finite DEFAULT_GOAL_TEMP ∧
    DEFAULT_GOAL_TEMP ≤ MAXIMUM_TEMP ∧
    (manage_temp_step s).2 = [RelayWrite.mk RelayId.heater true] ∧
    (manage_temp_step s).1.heater_on = true := by
  have hcond : heaterCond s.current_temp s.goal_temp = true := by
    rw [hc, hg]
    simp [heaterCond, PyFloat.lt, PyFloat.le, DEFAULT_GOAL_TEMP, MAXIMUM_TEMP]
    norm_num
  refine ⟨rfl, rfl, by norm_num [DEFAULT_GOAL_TEMP, MAXIMUM_TEMP], ?_, ?_⟩ <;>
    simp [manage_temp_step, hcond]

/-- Witness for C10 at the constructed initial state. -/
theorem C10_startup_tick_heats_witness :
    (manage_temp_step initState).2 = [RelayWrite.mk RelayId.heater true] :=
  (C10_startup_tick_heats initState rfl rfl).2.2.2.1
